import Mathlib

/-!
Shallow embedding of the SmartRiceAgri client API layer:
`src/services/bidService.jsx` (the `BidService` class), the shared axios
client `src/api/axios.js` (response interceptor), and the `AllocationList`
presentational component (pagination controls).

JavaScript values are modelled as follows: an optional string field is
`Option String`, where `none` is an absent property and `some ""` an empty
string; JS truthiness of such a field holds exactly when it is `some s`
with `s` nonempty. Optional numeric fields are `Option Int`, falsy exactly
when absent or zero. An axios failure object is `JsError`; a backend call
outcome is `Except JsError α`. Each service method is a function from its
arguments and the backend outcome to the pair of (requests actually
issued, final result), where the final result is `Except String α` and the
error string is the `message` of the JS `Error` the method throws.
-/

deriving instance DecidableEq for Except

/-- JS truthiness of an optional string property: absent (`none`) and the
empty string are falsy, every other string is truthy. -/
def jsTruthyStr (o : Option String) : Bool :=
  match o with
  | some s => s != ""
  | none => false

/-- JS truthiness of an optional numeric property: absent (`none`) and `0`
are falsy. -/
def jsTruthyInt (o : Option Int) : Bool :=
  match o with
  | some n => n != 0
  | none => false

/-- The `response` object attached to an axios error: the HTTP status and
the optional `data.message` field of the response body. -/
structure ErrResponse where
  status : Nat
  dataMessage : Option String
deriving DecidableEq, Repr

/-- An error value as seen by the service layer and the interceptor:
`message` (every JS `Error` has one; empty models an absent/empty one),
the axios transport `code` (e.g. `ERR_NETWORK`), the optional HTTP
`response`, and `config.url` (used only by the interceptor's log). -/
structure JsError where
  message : String
  code : Option String
  response : Option ErrResponse
  configUrl : Option String
deriving DecidableEq, Repr

/-- `error.response?.data?.message` -/
def respDataMessage (e : JsError) : Option String :=
  match e.response with
  | some r => r.dataMessage
  | none => none

/-- `error.response?.status` -/
def respStatus (e : JsError) : Option Nat :=
  match e.response with
  | some r => some r.status
  | none => none

/-- `error.response?.status >= 500` (false when `response` is absent,
as `undefined >= 500` is false in JS). -/
def statusAtLeast500 (e : JsError) : Bool :=
  match e.response with
  | some r => 500 ≤ r.status
  | none => false

/-- `BidService.handleError`: the message of the normalized `Error`.
Mirrors the cascade of `if` statements in the source: backend-supplied
message first, then transport codes, then HTTP status buckets, then the
original message or the generic fallback. -/
def handleError (e : JsError) : String :=
  if jsTruthyStr (respDataMessage e) then (respDataMessage e).getD ""
  else if e.code == some "ERR_NETWORK" then
    "Cannot connect to server. Please check your connection."
  else if e.code == some "ECONNABORTED" then
    "Request timeout - please try again."
  else if respStatus e == some 400 then
    "Invalid request. Please check your input."
  else if respStatus e == some 401 then
    "Please log in to continue."
  else if respStatus e == some 403 then
    "You do not have permission to perform this action."
  else if respStatus e == some 404 then
    "The requested resource was not found."
  else if respStatus e == some 409 then
    "This operation conflicts with an existing resource."
  else if statusAtLeast500 e then
    "Server error. Please try again later."
  else if e.message != "" then e.message
  else "An unexpected error occurred."

/-- A plain `new Error(msg)` thrown by a validation check: no transport
code, no HTTP response. -/
def validationFailure (msg : String) : JsError :=
  { message := msg, code := none, response := none, configUrl := none }

/-- A JS `Date` value, split into the local calendar day and the
milliseconds elapsed within that day, which is what `setHours` mutates. -/
structure JsDate where
  day : Int
  msOfDay : Nat
deriving DecidableEq, Repr

/-- `harvestDate.setHours(12, 0, 0, 0)`: same calendar day, time-of-day
forced to noon (12 h = 43200000 ms). -/
def setHoursNoon (d : JsDate) : JsDate :=
  { day := d.day, msOfDay := 43200000 }

/-- The caller-supplied argument of `createBid`: `farmerNic`,
`harvestDate`, an optional caller-supplied `status`, and the remaining
fields of the request object, carried opaquely as key/value pairs. -/
structure BidCreateRequest where
  farmerNic : Option String
  harvestDate : JsDate
  status : Option String
  extra : List (String × String)
deriving DecidableEq, Repr

/-- The body `createBid` posts: the spread of the caller's request with
`harvestDate` and `status` overwritten. -/
structure BidCreateBody where
  farmerNic : Option String
  harvestDate : JsDate
  status : String
  extra : List (String × String)
deriving DecidableEq, Repr

/-- `BidService.createBid`: validation, date normalization, status
override, one POST. Returns the list of requests actually sent and the
final result (success data or thrown-error message). -/
def createBid {α : Type} (req : BidCreateRequest)
    (backend : BidCreateBody → Except JsError α) :
    List BidCreateBody × Except String α :=
  if jsTruthyStr req.farmerNic then
    let body : BidCreateBody :=
      { farmerNic := req.farmerNic
        harvestDate := setHoursNoon req.harvestDate
        status := "ACTIVE"
        extra := req.extra }
    match backend body with
    | .ok a => ([body], .ok a)
    | .error e => ([body], .error (handleError e))
  else
    ([], .error (handleError (validationFailure "Farmer NIC is required")))

/-- `BidService.getFarmerBids` -/
def getFarmerBids {α : Type} (farmerNic : Option String)
    (backend : Except JsError α) : List String × Except String α :=
  if jsTruthyStr farmerNic then
    let url := "/bids/farmer/" ++ farmerNic.getD ""
    match backend with
    | .ok a => ([url], .ok a)
    | .error e => ([url], .error (handleError e))
  else
    ([], .error (handleError (validationFailure "Farmer NIC is required")))

/-- `BidService.getBuyerWinningBids` -/
def getBuyerWinningBids {α : Type} (buyerNic : Option String)
    (backend : Except JsError α) : List String × Except String α :=
  if jsTruthyStr buyerNic then
    let url := "/bids/buyer/" ++ buyerNic.getD "" ++ "/winning"
    match backend with
    | .ok a => ([url], .ok a)
    | .error e => ([url], .error (handleError e))
  else
    ([], .error (handleError (validationFailure "Buyer NIC is required")))

/-- `BidService.getBidDetails` -/
def getBidDetails {α : Type} (bidId : Option String)
    (backend : Except JsError α) : List String × Except String α :=
  if jsTruthyStr bidId then
    let url := "/bids/" ++ bidId.getD ""
    match backend with
    | .ok a => ([url], .ok a)
    | .error e => ([url], .error (handleError e))
  else
    ([], .error (handleError (validationFailure "Bid ID is required")))

/-- The caller-supplied argument of `placeBid`. -/
structure BidOfferRequest where
  bidId : Option String
  buyerNic : Option String
  bidAmount : Option Int
deriving DecidableEq, Repr

/-- `BidService.placeBid`: `!bidId || !buyerNic || !bidAmount` raises the
validation error; otherwise one POST to `/bids/offer`. -/
def placeBid {α : Type} (req : BidOfferRequest)
    (backend : Except JsError α) : List String × Except String α :=
  if jsTruthyStr req.bidId && jsTruthyStr req.buyerNic &&
      jsTruthyInt req.bidAmount then
    match backend with
    | .ok a => (["/bids/offer"], .ok a)
    | .error e => (["/bids/offer"], .error (handleError e))
  else
    ([], .error (handleError
      (validationFailure "Bid ID, Buyer NIC, and bid amount are required")))

/-- `BidService.acceptBidOffer`: validation, one POST; in the catch block
a failure whose `response.status` is 500 is replaced by a specific
message before `handleError` is consulted. -/
def acceptBidOffer {α : Type} (bidId buyerNic : Option String)
    (backend : Except JsError α) : List String × Except String α :=
  if jsTruthyStr bidId && jsTruthyStr buyerNic then
    let url := "/bids/" ++ bidId.getD "" ++ "/accept-offer"
    match backend with
    | .ok a => ([url], .ok a)
    | .error e =>
      if respStatus e == some 500 then
        ([url], .error "Server error while processing the offer. Please try again.")
      else
        ([url], .error (handleError e))
  else
    ([], .error (handleError
      (validationFailure "Bid ID and Buyer NIC are required")))

/-- `BidService.cancelBid` -/
def cancelBid {α : Type} (bidId : Option String)
    (backend : Except JsError α) : List String × Except String α :=
  if jsTruthyStr bidId then
    let url := "/bids/" ++ bidId.getD "" ++ "/cancel"
    match backend with
    | .ok a => ([url], .ok a)
    | .error e => ([url], .error (handleError e))
  else
    ([], .error (handleError (validationFailure "Bid ID is required")))

/-- `BidService.updateBidStatus` -/
def updateBidStatus {α : Type} (bidId status : Option String)
    (backend : Except JsError α) : List String × Except String α :=
  if jsTruthyStr bidId && jsTruthyStr status then
    let url := "/bids/admin/" ++ bidId.getD "" ++ "/status"
    match backend with
    | .ok a => ([url], .ok a)
    | .error e => ([url], .error (handleError e))
  else
    ([], .error (handleError
      (validationFailure "Bid ID and status are required")))

/-- `BidService.forceCompleteBid` -/
def forceCompleteBid {α : Type} (bidId buyerNic : Option String)
    (amount : Option Int) (backend : Except JsError α) :
    List String × Except String α :=
  if jsTruthyStr bidId && jsTruthyStr buyerNic && jsTruthyInt amount then
    let url := "/bids/admin/" ++ bidId.getD "" ++ "/force-complete"
    match backend with
    | .ok a => ([url], .ok a)
    | .error e => ([url], .error (handleError e))
  else
    ([], .error (handleError
      (validationFailure "Bid ID, Buyer NIC, and amount are required")))

/-- `BidService.getBidStatistics` -/
def getBidStatistics {α : Type} (backend : Except JsError α) :
    List String × Except String α :=
  match backend with
  | .ok a => (["/bids/admin/statistics"], .ok a)
  | .error e => (["/bids/admin/statistics"], .error (handleError e))

/-- The value of a query parameter appended by `getAllBids`: either a
plain string or the `toISOString()` rendering of the instant `ms`
(milliseconds since the epoch); `toISOString` is injective on instants,
so the instant itself stands for the string. -/
inductive QueryVal where
  | str (s : String)
  | isoDate (ms : Int)
deriving DecidableEq, Repr

/-- The destructured filter argument of `getAllBids` (the `signal`
property is peeled off and passed to the transport, not into the query). -/
structure BidFilters where
  status : Option String
  dateRange : Option String
  searchTerm : Option String
deriving DecidableEq, Repr

/-- Digits accumulated left to right, as `parseInt` does. -/
def parseDigits (cs : List Char) (acc : Nat) : Nat :=
  match cs with
  | [] => acc
  | c :: rest => parseDigits rest (acc * 10 + (c.toNat - 48))

/-- The leading run of decimal digits of a character list. -/
def leadingDigits (cs : List Char) : List Char :=
  cs.takeWhile Char.isDigit

/-- The leading digits parsed as a natural number; `none` when there is
no leading digit (`parseInt` returns `NaN`). -/
def parseLeadingNat (cs : List Char) : Option Nat :=
  if leadingDigits cs = [] then none else some (parseDigits (leadingDigits cs) 0)

/-- Leading whitespace, which `parseInt` ignores, stripped. -/
def jsTrimLeading (cs : List Char) : List Char :=
  cs.dropWhile Char.isWhitespace

/-- JS `parseInt(s)` (radix 10): ignores leading whitespace, accepts an
optional sign, parses the leading digit run, `none` for `NaN`. -/
def jsParseInt (s : String) : Option Int :=
  match jsTrimLeading s.toList with
  | '-' :: rest => (parseLeadingNat rest).map (fun n => -(n : Int))
  | '+' :: rest => (parseLeadingNat rest).map (fun n => (n : Int))
  | cs => (parseLeadingNat cs).map (fun n => (n : Int))

/-- One day in milliseconds, the unit by which
`fromDate.setDate(fromDate.getDate() - days)` shifts the current instant. -/
def msPerDay : Int := 86400000

/-- The `status` parameter appended by `getAllBids`:
`filters.status && filters.status !== 'all'`. -/
def statusParams (f : BidFilters) : List (String × QueryVal) :=
  match f.status with
  | some s => if s != "" && s != "all" then [("status", QueryVal.str s)] else []
  | none => []

/-- The `fromDate` parameter appended by `getAllBids` when
`filters.dateRange` is truthy: `parseInt`, shift `now` back that many
days, render as ISO string. A `dateRange` that parses to `NaN` makes
`setDate(NaN)` produce an invalid date whose `toISOString()` throws a
`RangeError('Invalid time value')`, aborting the operation before the GET. -/
def dateParams (now : Int) (f : BidFilters) :
    Except String (List (String × QueryVal)) :=
  match f.dateRange with
  | some s =>
    if s != "" then
      match jsParseInt s with
      | some days => .ok [("fromDate", QueryVal.isoDate (now - days * msPerDay))]
      | none => .error "Invalid time value"
    else .ok []
  | none => .ok []

/-- The `searchTerm` parameter appended by `getAllBids`. -/
def searchParams (f : BidFilters) : List (String × QueryVal) :=
  match f.searchTerm with
  | some s => if s != "" then [("searchTerm", QueryVal.str s)] else []
  | none => []

/-- The `URLSearchParams` that `getAllBids` sends, built by the three
sequential `append`s; `now` is the instant `new Date()` observes. -/
def getAllBidsParams (now : Int) (f : BidFilters) :
    Except String (List (String × QueryVal)) :=
  match dateParams now f with
  | .ok dp => .ok (statusParams f ++ dp ++ searchParams f)
  | .error m => .error m

/-- A bid offer as returned by the backend; only `buyerNic` is consumed
by the reshaping. -/
structure RawOffer where
  buyerNic : String
deriving DecidableEq, Repr

/-- A bid record as returned by `/bids/admin/all`, before reshaping. -/
structure RawBid where
  bidOffers : Option (List RawOffer)
  winningBuyerNic : Option String
  winningBidAmount : Option Int
  postedDate : Option String
deriving DecidableEq, Repr

/-- The display date derived from `postedDate`:
`new Date(d).toLocaleDateString()` kept symbolically, or the literal
string `'Invalid Date'` when `postedDate` is falsy. -/
inductive DateDisplay where
  | localeDate (raw : String)
  | invalidDate
deriving DecidableEq, Repr

/-- A bid record after `getAllBids`'s `.map`: the spread of the raw
record (kept as `base`) plus the overwritten/derived display fields. -/
structure ProcessedBid where
  base : RawBid
  bidOffers : List RawOffer
  buyerNic : String
  winningBidPrice : Option Int
  createdAt : DateDisplay
deriving DecidableEq, Repr

/-- The ternary feeding the `||` fallback of the derived `buyerNic`:
`bid.bidOffers && bid.bidOffers.length > 0 ? join : '-'`. -/
def offersFallback (b : RawBid) : String :=
  match b.bidOffers with
  | some offers =>
    if 0 < offers.length then
      String.intercalate ", " (offers.map RawOffer.buyerNic)
    else "-"
  | none => "-"

/-- `bid.winningBuyerNic || (…ternary…)`. -/
def derivedBuyerNic (b : RawBid) : String :=
  match b.winningBuyerNic with
  | some w => if w != "" then w else offersFallback b
  | none => offersFallback b

/-- `bid.winningBidAmount || null` (note `0` is falsy and becomes null). -/
def derivedWinningPrice (b : RawBid) : Option Int :=
  match b.winningBidAmount with
  | some n => if n != 0 then some n else none
  | none => none

/-- `bid.postedDate ? new Date(bid.postedDate).toLocaleDateString()
: 'Invalid Date'`. -/
def derivedCreatedAt (b : RawBid) : DateDisplay :=
  match b.postedDate with
  | some d => if d != "" then DateDisplay.localeDate d else DateDisplay.invalidDate
  | none => DateDisplay.invalidDate

/-- The reshaping `getAllBids` applies to each returned record. -/
def processBid (b : RawBid) : ProcessedBid :=
  { base := b
    bidOffers := b.bidOffers.getD []
    buyerNic := derivedBuyerNic b
    winningBidPrice := derivedWinningPrice b
    createdAt := derivedCreatedAt b }

/-- `BidService.getAllBids`: build the query (which can itself throw on a
non-numeric `dateRange`), one GET, reshape each record of the response. -/
def getAllBids (now : Int) (f : BidFilters)
    (backend : List (String × QueryVal) → Except JsError (List RawBid)) :
    List (List (String × QueryVal)) × Except String (List ProcessedBid) :=
  match getAllBidsParams now f with
  | .error m => ([], .error (handleError (validationFailure m)))
  | .ok ps =>
    match backend ps with
    | .ok bids => ([ps], .ok (bids.map processBid))
    | .error e => ([ps], .error (handleError e))

/-- The `reduce` in `getFilteredBids`: keep an entry exactly when its
value is truthy, not `'ALL'`, and not `''`. -/
def cleanFilters (fs : List (String × String)) : List (String × String) :=
  fs.filter (fun kv => kv.2 != "" && kv.2 != "ALL")

/-- `BidService.getFilteredBids`: one GET to `/bids/active` with the
cleaned filters as query parameters. -/
def getFilteredBids {α : Type} (filters : List (String × String))
    (backend : Except JsError α) :
    List (List (String × String)) × Except String α :=
  match backend with
  | .ok a => ([cleanFilters filters], .ok a)
  | .error e => ([cleanFilters filters], .error (handleError e))

/-- A successful axios response as the interceptor sees it. -/
structure AxiosResponse where
  status : Nat
  data : String
deriving DecidableEq, Repr

/-- One `console.error` line emitted by the response interceptor in
`src/api/axios.js`. -/
inductive LogLine where
  | serverError (data : ErrResponse)
  | apiNotFound (url : String)
  | statusError (status : Nat) (data : ErrResponse)
  | networkError
deriving DecidableEq, Repr

/-- The interceptor's classification of a failure, which only selects a
log line: 500, 404, other HTTP status, or `ERR_NETWORK`; anything else
logs nothing. -/
def interceptLog (e : JsError) : List LogLine :=
  match e.response with
  | some r =>
    if r.status = 500 then [LogLine.serverError r]
    else if r.status = 404 then [LogLine.apiNotFound (e.configUrl.getD "")]
    else [LogLine.statusError r.status r]
  | none =>
    if e.code == some "ERR_NETWORK" then [LogLine.networkError] else []

/-- The interceptor's rejection handler: log, then
`return Promise.reject(error)` with the very same error value. -/
def interceptOnError (e : JsError) : List LogLine × JsError :=
  (interceptLog e, e)

/-- The interceptor's fulfillment handler: `(response) => response`. -/
def interceptOnSuccess (r : AxiosResponse) : AxiosResponse := r

/-- The two pagination buttons rendered by `AllocationList`: the
`disabled` attribute and the argument passed to `onPageChange` on click.
The Previous button carries `disabled={currentPage === 0}`; the Next
button carries no `disabled` attribute at all. -/
structure PaginationButtons where
  prevDisabled : Bool
  prevClickArg : Int
  nextDisabled : Bool
  nextClickArg : Int
deriving DecidableEq, Repr

/-- The pagination controls of `AllocationList` as a function of the
`currentPage` prop (the allocation list plays no part in them). -/
def allocationListPagination (currentPage : Int) : PaginationButtons :=
  { prevDisabled := currentPage == 0
    prevClickArg := currentPage - 1
    nextDisabled := false
    nextClickArg := currentPage + 1 }

/-- A backend-supplied nonempty `response.data.message` makes
`handleError` return exactly that message. -/
theorem handleError_backend_message (e : JsError) (m : String)
    (hm : respDataMessage e = some m) (hne : m ≠ "") :
    handleError e = m := by
  have h1 : jsTruthyStr (some m) = true := by
    simpa [jsTruthyStr] using hne
  simp [handleError, hm, h1]

/-- C1: every bid-service operation that requires an identifier rejects a
request in which that identifier is absent with its validation-error
message, issuing no network request at all. -/
theorem c1_missing_identifier_validation (α : Type) :
    (∀ (req : BidCreateRequest) (backend : BidCreateBody → Except JsError α),
       req.farmerNic = none →
       createBid req backend = ([], .error "Farmer NIC is required")) ∧
    (∀ backend : Except JsError α,
       getFarmerBids none backend = ([], .error "Farmer NIC is required")) ∧
    (∀ backend : Except JsError α,
       getBuyerWinningBids none backend = ([], .error "Buyer NIC is required")) ∧
    (∀ backend : Except JsError α,
       getBidDetails none backend = ([], .error "Bid ID is required")) ∧
    (∀ (req : BidOfferRequest) (backend : Except JsError α),
       req.bidId = none ∨ req.buyerNic = none ∨ req.bidAmount = none →
       placeBid req backend =
         ([], .error "Bid ID, Buyer NIC, and bid amount are required")) ∧
    (∀ (bidId buyerNic : Option String) (backend : Except JsError α),
       bidId = none ∨ buyerNic = none →
       acceptBidOffer bidId buyerNic backend =
         ([], .error "Bid ID and Buyer NIC are required")) ∧
    (∀ backend : Except JsError α,
       cancelBid none backend = ([], .error "Bid ID is required")) ∧
    (∀ (bidId status : Option String) (backend : Except JsError α),
       bidId = none ∨ status = none →
       updateBidStatus bidId status backend =
         ([], .error "Bid ID and status are required")) ∧
    (∀ (bidId buyerNic : Option String) (amount : Option Int)
       (backend : Except JsError α),
       bidId = none ∨ buyerNic = none ∨ amount = none →
       forceCompleteBid bidId buyerNic amount backend =
         ([], .error "Bid ID, Buyer NIC, and amount are required")) := by
  refine ⟨?_, fun _ => rfl, fun _ => rfl, fun _ => rfl, ?_, ?_, fun _ => rfl, ?_, ?_⟩
  · intro req backend h
    obtain ⟨fn, hd, st, ex⟩ := req
    subst h
    rfl
  · intro req backend h
    obtain ⟨bi, bu, am⟩ := req
    rcases h with h | h | h <;> subst h <;>
      simp [placeBid, jsTruthyStr, jsTruthyInt] <;> decide
  · intro bidId buyerNic backend h
    rcases h with h | h <;> subst h <;>
      simp [acceptBidOffer, jsTruthyStr] <;> decide
  · intro bidId status backend h
    rcases h with h | h <;> subst h <;>
      simp [updateBidStatus, jsTruthyStr] <;> decide
  · intro bidId buyerNic amount backend h
    rcases h with h | h | h <;> subst h <;>
      simp [forceCompleteBid, jsTruthyStr, jsTruthyInt] <;> decide

/-- C1 witness: `createBid` with an absent `farmerNic` fails with the
validation message and issues no request. -/
theorem c1_witness :
    createBid ⟨none, ⟨19700, 0⟩, none, []⟩
        (fun _ => (Except.ok 0 : Except JsError Nat)) =
      ([], .error "Farmer NIC is required") :=
  (c1_missing_identifier_validation Nat).1 _ _ rfl

/-- C9: a present-but-zero amount is falsy in JS, so `placeBid` with
`bidAmount` 0 and `forceCompleteBid` with `amount` 0 fail with the
missing-required-field validation error and issue no network request. -/
theorem c9_zero_amount_validation :
    (∀ (α : Type) (bidId buyerNic : Option String)
       (backend : Except JsError α),
       placeBid ⟨bidId, buyerNic, some 0⟩ backend =
         ([], .error "Bid ID, Buyer NIC, and bid amount are required")) ∧
    (∀ (α : Type) (bidId buyerNic : Option String)
       (backend : Except JsError α),
       forceCompleteBid bidId buyerNic (some 0) backend =
         ([], .error "Bid ID, Buyer NIC, and amount are required")) := by
  constructor <;> intro α bidId buyerNic backend <;>
    simp [placeBid, forceCompleteBid, jsTruthyInt] <;> decide

/-- C6: the connectivity, not-found, conflict, and generic-fallback
messages produced by `handleError` are what the spec says and are
pairwise distinct. -/
theorem c6_distinct_error_messages :
    handleError ⟨"Network Error", some "ERR_NETWORK", none, none⟩ =
      "Cannot connect to server. Please check your connection." ∧
    handleError ⟨"Request failed with status code 404", none,
        some ⟨404, none⟩, none⟩ =
      "The requested resource was not found." ∧
    handleError ⟨"Request failed with status code 409", none,
        some ⟨409, none⟩, none⟩ =
      "This operation conflicts with an existing resource." ∧
    handleError ⟨"", none, none, none⟩ = "An unexpected error occurred." ∧
    "Cannot connect to server. Please check your connection." ≠
      "The requested resource was not found." ∧
    "Cannot connect to server. Please check your connection." ≠
      "This operation conflicts with an existing resource." ∧
    "Cannot connect to server. Please check your connection." ≠
      "An unexpected error occurred." ∧
    "The requested resource was not found." ≠
      "This operation conflicts with an existing resource." ∧
    "The requested resource was not found." ≠
      "An unexpected error occurred." ∧
    "This operation conflicts with an existing resource." ≠
      "An unexpected error occurred." := by
  decide

/-- C8: the shared client's response interceptor passes every success
through unchanged and re-signals every failure as the very same error
value; the status/network classification only chooses the log line. -/
theorem c8_interceptor_passthrough :
    (∀ r : AxiosResponse, interceptOnSuccess r = r) ∧
    (∀ e : JsError, (interceptOnError e).2 = e) :=
  ⟨fun _ => rfl, fun _ => rfl⟩

/-- C3: every record reshaped by `getAllBids` exposes `bidOffers` as a
list (empty when the backend omitted it), and its derived `buyerNic` is
the winning buyer identifier when one is present (nonempty), otherwise
the comma-joined offer buyer identifiers in order when offers exist,
otherwise the placeholder `-`. -/
theorem c3_offers_default_and_display_buyer (b : RawBid) :
    (processBid b).bidOffers = b.bidOffers.getD [] ∧
    (processBid b).buyerNic =
      (match b.winningBuyerNic with
       | some w =>
         if w = "" then
           if b.bidOffers.getD [] = [] then "-"
           else String.intercalate ", " ((b.bidOffers.getD []).map RawOffer.buyerNic)
         else w
       | none =>
         if b.bidOffers.getD [] = [] then "-"
         else String.intercalate ", " ((b.bidOffers.getD []).map RawOffer.buyerNic)) := by
  refine ⟨rfl, ?_⟩
  show derivedBuyerNic b = _
  have hfall : offersFallback b =
      (if b.bidOffers.getD [] = [] then "-"
       else String.intercalate ", " ((b.bidOffers.getD []).map RawOffer.buyerNic)) := by
    cases ho : b.bidOffers with
    | none => simp [offersFallback, ho]
    | some offers =>
      cases offers with
      | nil => simp [offersFallback, ho]
      | cons o os => simp [offersFallback, ho]
  cases hw : b.winningBuyerNic with
  | none => simpa [derivedBuyerNic, hw] using hfall
  | some w =>
    by_cases hweq : w = ""
    · subst hweq
      simpa [derivedBuyerNic, hw] using hfall
    · simp [derivedBuyerNic, hw, hweq]

/-- C5: when `acceptBidOffer`'s call fails with HTTP status 500, the
surfaced message is the operation-specific one, which differs from the
generic 5xx message of the shared mapping. -/
theorem c5_accept_offer_500_message (α : Type) (bidId buyerNic : Option String)
    (e : JsError) (hb : jsTruthyStr bidId = true)
    (hu : jsTruthyStr buyerNic = true) (h5 : respStatus e = some 500) :
    (acceptBidOffer bidId buyerNic (Except.error e : Except JsError α)).2 =
      .error "Server error while processing the offer. Please try again." ∧
    "Server error while processing the offer. Please try again." ≠
      "Server error. Please try again later." := by
  refine ⟨?_, by decide⟩
  simp [acceptBidOffer, hb, hu, h5]

/-- C5 witness: a concrete 500 failure (even one carrying a backend
message) surfaces the offer-specific message. -/
theorem c5_witness :
    (acceptBidOffer (some "42") (some "B77")
        (Except.error ⟨"Request failed with status code 500", none,
          some ⟨500, none⟩, some "/bids/42/accept-offer"⟩ :
          Except JsError Nat)).2 =
      .error "Server error while processing the offer. Please try again." ∧
    "Server error while processing the offer. Please try again." ≠
      "Server error. Please try again later." :=
  c5_accept_offer_500_message Nat (some "42") (some "B77")
    ⟨"Request failed with status code 500", none, some ⟨500, none⟩,
      some "/bids/42/accept-offer"⟩ (by decide) (by decide) (by decide)

/-- C7: a `createBid` request with a truthy farmer identifier results in
exactly one POST whose body is the caller's request with the harvest
date's time-of-day forced to noon (43200000 ms into the same day) and the
status forced to `ACTIVE`, the remaining fields unchanged. -/
theorem c7_create_sends_normalized_request (α : Type) (req : BidCreateRequest)
    (backend : BidCreateBody → Except JsError α)
    (hnic : jsTruthyStr req.farmerNic = true) :
    (createBid req backend).1 =
      [{ farmerNic := req.farmerNic
         harvestDate := { day := req.harvestDate.day, msOfDay := 43200000 }
         status := "ACTIVE"
         extra := req.extra }] := by
  simp only [createBid, hnic, if_true, setHoursNoon]
  cases backend { farmerNic := req.farmerNic
                  harvestDate := { day := req.harvestDate.day, msOfDay := 43200000 }
                  status := "ACTIVE"
                  extra := req.extra } <;> rfl

/-- C7 witness: a concrete request with a caller-supplied status and a
non-noon harvest time is sent normalized. -/
theorem c7_witness :
    (createBid ⟨some "F9", ⟨19723, 555⟩, some "PENDING", [("quantity", "20")]⟩
        (fun _ => (Except.ok 7 : Except JsError Nat))).1 =
      [{ farmerNic := some "F9"
         harvestDate := ⟨19723, 43200000⟩
         status := "ACTIVE"
         extra := [("quantity", "20")] }] :=
  c7_create_sends_normalized_request Nat
    ⟨some "F9", ⟨19723, 555⟩, some "PENDING", [("quantity", "20")]⟩
    (fun _ => (Except.ok 7 : Except JsError Nat)) (by decide)

/-- A filter meaning "all" or left empty makes `getAllBids` skip the
`status` append. -/
theorem statusParams_omitted (f : BidFilters)
    (h : f.status = none ∨ f.status = some "" ∨ f.status = some "all") :
    statusParams f = [] := by
  rcases h with h | h | h <;> simp [statusParams, h]

/-- An absent or empty `dateRange` makes `getAllBids` skip the
`fromDate` append. -/
theorem dateParams_omitted (now : Int) (f : BidFilters)
    (h : f.dateRange = none ∨ f.dateRange = some "") :
    dateParams now f = .ok [] := by
  rcases h with h | h <;> simp [dateParams, h]

/-- An absent or empty `searchTerm` makes `getAllBids` skip the
`searchTerm` append. -/
theorem searchParams_omitted (f : BidFilters)
    (h : f.searchTerm = none ∨ f.searchTerm = some "") :
    searchParams f = [] := by
  rcases h with h | h <;> simp [searchParams, h]

/-- Everything `statusParams` appends is keyed `status`. -/
theorem statusParams_key (f : BidFilters) (p : String × QueryVal)
    (hp : p ∈ statusParams f) : p.1 = "status" := by
  rcases f with ⟨st, dr, se⟩
  cases st with
  | none => simp [statusParams] at hp
  | some s =>
    simp only [statusParams] at hp
    split at hp
    · simp at hp; simp [hp]
    · simp at hp

/-- Everything `dateParams` succeeds with is keyed `fromDate`. -/
theorem dateParams_key (now : Int) (f : BidFilters)
    (l : List (String × QueryVal)) (h : dateParams now f = .ok l)
    (p : String × QueryVal) (hp : p ∈ l) : p.1 = "fromDate" := by
  rcases f with ⟨st, dr, se⟩
  cases dr with
  | none =>
    simp [dateParams] at h
    subst h
    simp at hp
  | some s =>
    simp only [dateParams] at h
    split at h
    · split at h
      · simp only [Except.ok.injEq] at h
        subst h
        simp at hp
        simp [hp]
      · simp at h
    · simp only [Except.ok.injEq] at h
      subst h
      simp at hp

/-- Everything `searchParams` appends is keyed `searchTerm`. -/
theorem searchParams_key (f : BidFilters) (p : String × QueryVal)
    (hp : p ∈ searchParams f) : p.1 = "searchTerm" := by
  rcases f with ⟨st, dr, se⟩
  cases se with
  | none => simp [searchParams] at hp
  | some s =>
    simp only [searchParams] at hp
    split at hp
    · simp at hp; simp [hp]
    · simp at hp

/-- C2 counterexample: the two list operations disagree on the sentinel's
spelling. `getFilteredBids` only drops the uppercase `ALL`, so a filter
valued `all` survives into its outgoing query; likewise `getAllBids` only
treats `all` specially for `status`, so a `searchTerm` valued `all` is
sent. -/
theorem c2_counterexample :
    (getFilteredBids [("status", "all")]
        (Except.ok 0 : Except JsError Nat)).1 = [[("status", "all")]] ∧
    searchParams { status := none, dateRange := none, searchTerm := some "all" } =
      [("searchTerm", QueryVal.str "all")] := by
  decide

/-- C2 (amended): in `getAllBids`, a `status` of `all` or empty is
omitted and an absent/empty `dateRange` or `searchTerm` appends nothing;
in `getFilteredBids`, a filter valued `ALL` or empty is omitted; and the
filter set `{status: ACTIVE, dateRange: 7}` yields exactly
`status=ACTIVE` and `fromDate = now - 7 days` and nothing else. -/
theorem c2_amended_filter_omission :
    (∀ (now : Int) (f : BidFilters) (l : List (String × QueryVal)),
       f.status = none ∨ f.status = some "" ∨ f.status = some "all" →
       getAllBidsParams now f = .ok l →
       "status" ∉ l.map Prod.fst) ∧
    (∀ (now : Int) (f : BidFilters) (l : List (String × QueryVal)),
       f.dateRange = none ∨ f.dateRange = some "" →
       getAllBidsParams now f = .ok l →
       "fromDate" ∉ l.map Prod.fst) ∧
    (∀ (now : Int) (f : BidFilters) (l : List (String × QueryVal)),
       f.searchTerm = none ∨ f.searchTerm = some "" →
       getAllBidsParams now f = .ok l →
       "searchTerm" ∉ l.map Prod.fst) ∧
    (∀ (fs : List (String × String)) (k : String),
       (k, "ALL") ∉ cleanFilters fs ∧ (k, "") ∉ cleanFilters fs) ∧
    (∀ now : Int,
       getAllBidsParams now
           { status := some "ACTIVE", dateRange := some "7", searchTerm := none } =
         .ok [("status", QueryVal.str "ACTIVE"),
              ("fromDate", QueryVal.isoDate (now - 7 * msPerDay))]) := by
  refine ⟨?_, ?_, ?_, ?_, fun now => rfl⟩
  · intro now f l hst hok hmem
    unfold getAllBidsParams at hok
    cases hdp : dateParams now f with
    | error m => rw [hdp] at hok; exact absurd hok (by simp)
    | ok dp =>
      rw [hdp] at hok
      simp only [Except.ok.injEq] at hok
      subst hok
      simp only [List.map_append, List.mem_append,
        statusParams_omitted f hst, List.map_nil, List.not_mem_nil,
        false_or] at hmem
      rcases hmem with hmem | hmem
      · obtain ⟨p, hp, hfst⟩ := List.mem_map.mp hmem
        rw [dateParams_key now f dp hdp p hp] at hfst
        exact absurd hfst (by decide)
      · obtain ⟨p, hp, hfst⟩ := List.mem_map.mp hmem
        rw [searchParams_key f p hp] at hfst
        exact absurd hfst (by decide)
  · intro now f l hdr hok hmem
    unfold getAllBidsParams at hok
    rw [dateParams_omitted now f hdr] at hok
    simp only [Except.ok.injEq] at hok
    subst hok
    simp only [List.append_nil, List.map_append, List.mem_append] at hmem
    rcases hmem with hmem | hmem
    · obtain ⟨p, hp, hfst⟩ := List.mem_map.mp hmem
      rw [statusParams_key f p hp] at hfst
      exact absurd hfst (by decide)
    · obtain ⟨p, hp, hfst⟩ := List.mem_map.mp hmem
      rw [searchParams_key f p hp] at hfst
      exact absurd hfst (by decide)
  · intro now f l hse hok hmem
    unfold getAllBidsParams at hok
    cases hdp : dateParams now f with
    | error m => rw [hdp] at hok; exact absurd hok (by simp)
    | ok dp =>
      rw [hdp] at hok
      simp only [Except.ok.injEq] at hok
      subst hok
      simp only [List.map_append, List.mem_append,
        searchParams_omitted f hse, List.map_nil, List.not_mem_nil,
        or_false] at hmem
      rcases hmem with hmem | hmem
      · obtain ⟨p, hp, hfst⟩ := List.mem_map.mp hmem
        rw [statusParams_key f p hp] at hfst
        exact absurd hfst (by decide)
      · obtain ⟨p, hp, hfst⟩ := List.mem_map.mp hmem
        rw [dateParams_key now f dp hdp p hp] at hfst
        exact absurd hfst (by decide)
  · intro fs k
    constructor <;> intro hmem <;>
      rcases List.mem_filter.mp hmem with ⟨-, hp⟩ <;> simp at hp

/-- C2 witness for the amended statement: with `status = "all"` and a
nonempty search term, the outgoing `getAllBids` query carries no
`status` parameter. -/
theorem c2_witness :
    "status" ∉
      (List.map Prod.fst
        [("searchTerm", QueryVal.str "rice")]) :=
  c2_amended_filter_omission.1 0
    { status := some "all", dateRange := none, searchTerm := some "rice" }
    [("searchTerm", QueryVal.str "rice")]
    (Or.inr (Or.inr rfl)) rfl

/-- C4 counterexample: an `acceptBidOffer` failure with HTTP 500 whose
response body carries the message `Out of stock` surfaces the
operation-specific server-error message, not the backend-supplied one:
the 500 check in the catch block runs before `handleError`. -/
theorem c4_counterexample :
    respDataMessage ⟨"Request failed with status code 500", none,
        some ⟨500, some "Out of stock"⟩, some "/bids/1/accept-offer"⟩ =
      some "Out of stock" ∧
    (acceptBidOffer (some "1") (some "B200")
        (Except.error ⟨"Request failed with status code 500", none,
          some ⟨500, some "Out of stock"⟩, some "/bids/1/accept-offer"⟩ :
          Except JsError Nat)).2 =
      .error "Server error while processing the offer. Please try again." ∧
    "Server error while processing the offer. Please try again." ≠
      "Out of stock" := by
  decide

/-- C4 (amended): for every bid-service operation failure whose backend
response carries a nonempty message, the surfaced error message is
exactly that message, taking precedence over the status-based mapping —
except `acceptBidOffer` failing with HTTP 500, where the
operation-specific message wins; for `acceptBidOffer` the backend
message prevails whenever the status is not 500. -/
theorem c4_amended_backend_message_precedence (α : Type) (e : JsError)
    (m : String) (hm : respDataMessage e = some m) (hne : m ≠ "") :
    handleError e = m ∧
    (∀ backend : BidCreateBody → Except JsError α,
       (∀ b, backend b = .error e) →
       ∀ req, jsTruthyStr req.farmerNic = true →
       (createBid req backend).2 = .error m) ∧
    (∀ (f : BidFilters) (ps : List (String × QueryVal)),
       getAllBidsParams 0 f = .ok ps →
       (getAllBids 0 f (fun _ => .error e)).2 = .error m) ∧
    (∀ fs : List (String × String),
       (getFilteredBids fs (Except.error e : Except JsError α)).2 = .error m) ∧
    (getFarmerBids (some "F1") (Except.error e : Except JsError α)).2 = .error m ∧
    (getBuyerWinningBids (some "B1") (Except.error e : Except JsError α)).2 = .error m ∧
    (getBidDetails (some "7") (Except.error e : Except JsError α)).2 = .error m ∧
    (placeBid ⟨some "7", some "B1", some 5⟩
        (Except.error e : Except JsError α)).2 = .error m ∧
    (respStatus e ≠ some 500 →
      (acceptBidOffer (some "7") (some "B1")
          (Except.error e : Except JsError α)).2 = .error m) ∧
    (cancelBid (some "7") (Except.error e : Except JsError α)).2 = .error m ∧
    (updateBidStatus (some "7") (some "COMPLETED")
        (Except.error e : Except JsError α)).2 = .error m ∧
    (forceCompleteBid (some "7") (some "B1") (some 5)
        (Except.error e : Except JsError α)).2 = .error m ∧
    (getBidStatistics (Except.error e : Except JsError α)).2 = .error m := by
  have hh : handleError e = m := handleError_backend_message e m hm hne
  refine ⟨hh, ?_, ?_, ?_, ?_, ?_, ?_, ?_, ?_, ?_, ?_, ?_, ?_⟩
  · intro backend hb req hnic
    simp [createBid, hnic, hb, hh]
  · intro f ps hps
    simp [getAllBids, hps, hh]
  · intro fs
    simp [getFilteredBids, hh]
  · simp [getFarmerBids, jsTruthyStr, hh]
  · simp [getBuyerWinningBids, jsTruthyStr, hh]
  · simp [getBidDetails, jsTruthyStr, hh]
  · simp [placeBid, jsTruthyStr, jsTruthyInt, hh]
  · intro h500
    have hb : (respStatus e == some 500) = false := by
      simpa using h500
    simp [acceptBidOffer, jsTruthyStr, hb, hh]
  · simp [cancelBid, jsTruthyStr, hh]
  · simp [updateBidStatus, jsTruthyStr, hh]
  · simp [forceCompleteBid, jsTruthyStr, jsTruthyInt, hh]
  · simp [getBidStatistics, hh]

/-- C4 witness for the amended statement: a 409 failure carrying the
backend message `Backend says no` is normalized to exactly that message. -/
theorem c4_witness :
    handleError ⟨"Request failed with status code 409", none,
        some ⟨409, some "Backend says no"⟩, some "/bids/7/cancel"⟩ =
      "Backend says no" :=
  (c4_amended_backend_message_precedence Nat
    ⟨"Request failed with status code 409", none,
      some ⟨409, some "Backend says no"⟩, some "/bids/7/cancel"⟩
    "Backend says no" rfl (by decide)).1

/-- C10 counterexample: for the supplied value `currentPage = -1` the
Previous control is enabled (disabled is exactly `currentPage === 0`) and
clicking it invokes the page-change callback with `-2`, a negative page. -/
theorem c10_counterexample :
    (allocationListPagination (-1)).prevDisabled = false ∧
    (allocationListPagination (-1)).prevClickArg = -2 ∧ ((-2 : Int) < 0) := by
  decide

/-- C10 (amended): Previous is disabled exactly when `currentPage` is 0
and Next is never disabled, invoking the callback with `currentPage + 1`
with no upper bound; for every nonnegative `currentPage`, an enabled
Previous invokes the callback with a nonnegative page. -/
theorem c10_amended_pagination (p : Int) :
    ((allocationListPagination p).prevDisabled = true ↔ p = 0) ∧
    (allocationListPagination p).nextDisabled = false ∧
    (allocationListPagination p).nextClickArg = p + 1 ∧
    (0 ≤ p → (allocationListPagination p).prevDisabled = false →
      0 ≤ (allocationListPagination p).prevClickArg) := by
  refine ⟨?_, rfl, rfl, ?_⟩
  · simp [allocationListPagination]
  · intro h0 hd
    simp [allocationListPagination] at hd ⊢
    omega

/-- C10 witness: at page 5 an enabled Previous still targets a
nonnegative page. -/
theorem c10_witness : 0 ≤ (allocationListPagination 5).prevClickArg :=
  (c10_amended_pagination 5).2.2.2 (by decide) (by decide)
